import Mathlib

/-!
Verification of the wewerewondering Q&A backend core
(src/server/src/main.rs) against its natural-language specification.

The storage core is embedded shallowly:

* `check_secret` is translated directly from `src/server/src/main.rs`
  (lines 47-86), including both the DynamoDB branch and the Local branch.
  The DynamoDB client is modelled as the logical contents of the `events`
  table together with a transport-health flag; a `get_item` call with
  projection expression `"secret"` is modelled by `DynamoClient.getItemSecret`.
  The Local branch's `events[eid]` indexes a `HashMap` and panics when the
  key is absent; a panic is modelled by `Option.none` in the result of
  `check_secret`.
* The handler modules (`mod ask; mod list; mod new; mod question;
  mod toggle; mod vote;`) are declared in `main.rs` but their files are not
  part of the source tree, so the corresponding operations are modelled
  from the specification (each such definition is marked
  `Modelled from the spec:`).

Machine integers: the vote counter is a non-negative integer in the spec
and is modelled as `Nat`; no overflowing arithmetic occurs in the core.
-/

set_option autoImplicit false

/-- Opaque unique identifier (`uuid::Uuid` in the source); modelled as a
string, since the source only ever compares ids for equality and renders
them as strings. -/
abbrev Uuid := String

/-- Lookup in an association list, modelling `HashMap::get`. -/
def assocGet {α β : Type} [DecidableEq α] (m : List (α × β)) (k : α) : Option β :=
  match m with
  | [] => none
  | (k', v) :: rest => if k' = k then some v else assocGet rest k

/-- Insert-or-replace in an association list, modelling `HashMap::insert`. -/
def assocSet {α β : Type} [DecidableEq α] (m : List (α × β)) (k : α) (v : β) : List (α × β) :=
  match m with
  | [] => [(k, v)]
  | (k', v') :: rest => if k' = k then (k, v) :: rest else (k', v') :: assocSet rest k v

/-- The DynamoDB attribute-value variants used by the source
(`aws_sdk_dynamodb::model::AttributeValue`): strings, numbers (kept in
their string form as the SDK does) and booleans. -/
inductive AttributeValue where
  | S (s : String)
  | N (n : String)
  | B (b : Bool)
deriving DecidableEq

/-- Translation of `AttributeValue::as_s(..).ok()`: the stored string when
the attribute is a string, and `none` otherwise. -/
def AttributeValue.asS : AttributeValue → Option String
  | .S s => some s
  | _ => none

/-- The two HTTP status codes produced by `check_secret` in the source:
`FORBIDDEN` for a secret mismatch and `INTERNAL_SERVER_ERROR` for a
DynamoDB request failure (the spec's `StoreUnavailable`). -/
inductive StatusCode where
  | FORBIDDEN
  | INTERNAL_SERVER_ERROR
deriving DecidableEq

/-- A DynamoDB item: a map from attribute names to attribute values. -/
abbrev Item := List (String × AttributeValue)

/-- Model of the `aws_sdk_dynamodb::Client` as observed by the core: the
logical contents of the `events` table (event id to stored item), plus a
flag saying whether requests to the service fail in transport
(`SdkError`).  A faithful shallow embedding of the network client for the
single read pattern `check_secret` performs. -/
structure DynamoClient where
  events : List (Uuid × Item)
  transportFails : Bool
deriving DecidableEq

/-- Model of
`get_item().table_name("events").key("id", eid).projection_expression("secret").send()`:
a transport failure yields `Except.error`; otherwise the response carries
the stored item projected onto its `"secret"` attribute when the event id
has a record, and no item when it has none. -/
def DynamoClient.getItemSecret (c : DynamoClient) (eid : Uuid) : Except Unit (Option Item) :=
  if c.transportFails then .error ()
  else .ok ((assocGet c.events eid).map (fun item =>
    match assocGet item "secret" with
    | some v => [("secret", v)]
    | none => []))

/-- The `struct Local` of the source: the in-process store, with `events`
mapping event id to stored secret, `questions` mapping question id to a
DynamoDB-style attribute map, and `questions_by_eid` mapping event id to
its list of question ids. -/
structure Local where
  events : List (Uuid × String)
  questions : List (Uuid × Item)
  questions_by_eid : List (Uuid × List Uuid)
deriving DecidableEq

/-- The `enum Backend` of the source: either a DynamoDB client or the
mutex-guarded local store (the mutex serialises operations; each modelled
operation is one critical section). -/
inductive Backend where
  | Dynamo (client : DynamoClient)
  | Loc (st : Local)
deriving DecidableEq

/-- Translation of `check_secret` (main.rs lines 47-86).  The result is
`Option`-wrapped: `none` models a panic.  The Dynamo branch never panics:
on transport failure it returns `INTERNAL_SERVER_ERROR`, otherwise it
checks `v.item().and_then(|e| e.get("secret")).and_then(|s| s.as_s().ok())
.map_or(false, |s| s == secret)` and returns `Ok(())` or `FORBIDDEN`.
The Local branch evaluates `events[eid] == secret`, and `events[eid]`
panics when `eid` has no entry. -/
def check_secret (dynamo : Backend) (eid : Uuid) (secret : String) :
    Option (Except StatusCode Unit) :=
  match dynamo with
  | .Dynamo c =>
    some (match c.getItemSecret eid with
      | .ok v =>
        if (((v.bind (fun e => assocGet e "secret")).bind
              AttributeValue.asS).map (fun s => s == secret)).getD false
        then .ok ()
        else .error .FORBIDDEN
      | .error _ => .error .INTERNAL_SERVER_ERROR)
  | .Loc st =>
    match assocGet st.events eid with
    | some s => some (if s == secret then .ok () else .error .FORBIDDEN)
    | none => none

/-- Modelled from the spec: `create_event` (the `new` module is declared in
main.rs but its file is not in the source tree).  Per section 4.1 it
generates a fresh id and a fresh secret (both supplied here by the
environment, section 6), persists an Event with an empty question set and
returns both.  On the Dynamo backend the event record stores the secret
under the `"secret"` attribute; on the Local backend `events` maps the id
to the secret and `questions_by_eid` gains an empty list. -/
def create_event : Backend → Uuid → String → Backend
  | .Dynamo c, eid, secret =>
    .Dynamo { c with events := assocSet c.events eid [("secret", AttributeValue.S secret)] }
  | .Loc st, eid, secret =>
    .Loc { st with
      events := assocSet st.events eid secret,
      questions_by_eid := assocSet st.questions_by_eid eid [] }

/-- Transport health of a backend: the Local store is always reachable;
the Dynamo client must not be failing in transport. -/
def Backend.transportOk : Backend → Prop
  | .Dynamo c => c.transportFails = false
  | .Loc _ => True

/-- The event id is safe to look up on this backend: on the Local backend
it must be present (otherwise `events[eid]` panics); the Dynamo branch
handles absence itself. -/
def Backend.hasEventLocally : Backend → Uuid → Prop
  | .Dynamo _, _ => True
  | .Loc st, eid => (assocGet st.events eid).isSome = true

/-- The spec-level failure taxonomy (section 7). -/
inductive Failure where
  | NotFound
  | Forbidden
  | InvalidProperty
  | StoreUnavailable
deriving DecidableEq

/-- The spec-level Question record (section 3). -/
structure Question where
  qid : Uuid
  event_id : Uuid
  text : String
  votes : Nat
  hidden : Bool
  answered : Bool
  created : Nat
deriving DecidableEq

/-- The spec-level abstract store state: events (id to stored secret),
questions (id to record) and the per-event question-id sets. -/
structure Store where
  events : List (Uuid × String)
  questions : List (Uuid × Question)
  questions_by_eid : List (Uuid × List Uuid)
deriving DecidableEq

/-- Vote direction. -/
inductive Direction where
  | up
  | down
deriving DecidableEq

/-- Modelled from the spec: `ask` (the `ask` module file is not in the
source tree).  Per section 4.1: fails with `NotFound` when the event id is
unknown and changes nothing; otherwise creates a Question with votes=0,
hidden=false, answered=false, created=now, appends its id to the event
question set, and returns the new id.  The fresh question id and the
current time come from the environment (section 6). -/
def ask (st : Store) (eid qid : Uuid) (tx : String) (now : Nat) :
    Except Failure Uuid × Store :=
  if (assocGet st.events eid).isSome then
    (.ok qid,
      { st with
        questions := assocSet st.questions qid
          { qid := qid, event_id := eid, text := tx, votes := 0,
            hidden := false, answered := false, created := now },
        questions_by_eid := assocSet st.questions_by_eid eid
          ((assocGet st.questions_by_eid eid).getD [] ++ [qid]) })
  else (.error .NotFound, st)

/-- Modelled from the spec: `vote` (the `vote` module file is not in the
source tree).  Per section 4.1: atomically adds +1 (up) or -1 (down) to
`votes`, clamped so it never goes below 0 (`Nat` subtraction is exactly
this clamp), returns the new count; fails with `NotFound` when the
question is absent, changing nothing. -/
def vote (st : Store) (qid : Uuid) (dir : Direction) : Except Failure Nat × Store :=
  match assocGet st.questions qid with
  | none => (.error .NotFound, st)
  | some q =>
    let n := match dir with
      | .up => q.votes + 1
      | .down => q.votes - 1
    (.ok n, { st with questions := assocSet st.questions qid { q with votes := n } })

/-- Modelled from the spec: `toggle` (the `toggle` module file is not in
the source tree).  Per section 4.1: the property must be one of
`{"hidden", "answered"}`, otherwise `InvalidProperty`; flips the current
value atomically and returns the result; `NotFound` when the question is
absent.  Either failure changes nothing. -/
def toggle (st : Store) (qid : Uuid) (prop : String) : Except Failure Bool × Store :=
  if prop = "hidden" then
    match assocGet st.questions qid with
    | none => (.error .NotFound, st)
    | some q =>
      (.ok (!q.hidden),
        { st with questions := assocSet st.questions qid { q with hidden := !q.hidden } })
  else if prop = "answered" then
    match assocGet st.questions qid with
    | none => (.error .NotFound, st)
    | some q =>
      (.ok (!q.answered),
        { st with questions := assocSet st.questions qid { q with answered := !q.answered } })
  else (.error .InvalidProperty, st)

/-- The questions belonging to an event, in question-set order. -/
def eventQuestions (st : Store) (eid : Uuid) : List Question :=
  ((assocGet st.questions_by_eid eid).getD []).filterMap (fun qid => assocGet st.questions qid)

/-- Modelled from the spec: `list_all` (the `list` module file is not in
the source tree).  Per section 4.1: every Question of the event regardless
of flags; `NotFound` when the event is unknown. -/
def list_all (st : Store) (eid : Uuid) : Except Failure (List Question) :=
  if (assocGet st.events eid).isSome then .ok (eventQuestions st eid)
  else .error .NotFound

/-- Modelled from the spec: `list_visible` (the `list` module file is not
in the source tree).  Per section 4.1: all Questions of the event
excluding those with hidden=true; `NotFound` when the event is unknown. -/
def list_visible (st : Store) (eid : Uuid) : Except Failure (List Question) :=
  if (assocGet st.events eid).isSome then
    .ok ((eventQuestions st eid).filter (fun q => !q.hidden))
  else .error .NotFound

/-- The current vote count of a question, when present. -/
def getVotes (st : Store) (qid : Uuid) : Option Nat :=
  (assocGet st.questions qid).map Question.votes

/-- The current value of a toggleable flag of a question, when present. -/
def getFlag (st : Store) (qid : Uuid) (prop : String) : Option Bool :=
  (assocGet st.questions qid).map (fun q => if prop = "hidden" then q.hidden else q.answered)

/-- Any serialisation of `n` concurrent up-votes on the same question: per
section 5 each vote is one atomic critical section (mutex on the Local
adapter, conditional update on the remote one), so every interleaving of
`n` up-votes executes them one after another. -/
def voteUpN (st : Store) (qid : Uuid) : Nat → Store
  | 0 => st
  | n + 1 => voteUpN (vote st qid .up).2 qid n

/-- The Dynamo events table and the Local events map hold the same
secrets: looking up the event item and reading its `"secret"` attribute as
a string yields exactly the Local store entry. -/
def representsEvents (c : DynamoClient) (st : Local) : Prop :=
  ∀ eid, ((assocGet c.events eid).bind (fun item => assocGet item "secret")).bind
      AttributeValue.asS = assocGet st.events eid

/-- A concrete question used by the witnesses below. -/
def q1 : Question :=
  { qid := "q1", event_id := "e1", text := "What is X?", votes := 2,
    hidden := false, answered := false, created := 100 }

/-- A concrete store used by the witnesses below: one event `"e1"` with
secret `"s1"` owning the single question `q1`. -/
def store1 : Store :=
  { events := [("e1", "s1")],
    questions := [("q1", q1)],
    questions_by_eid := [("e1", ["q1"])] }

theorem assocGet_assocSet_self {α β : Type} [DecidableEq α] (m : List (α × β)) (k : α) (v : β) :
    assocGet (assocSet m k v) k = some v := by
  induction m with
  | nil => simp [assocGet, assocSet]
  | cons p rest ih =>
    obtain ⟨k', v'⟩ := p
    by_cases h : k' = k <;> simp [assocGet, assocSet, h, ih]

theorem assocGet_assocSet_ne {α β : Type} [DecidableEq α] (m : List (α × β)) (k k' : α) (v : β)
    (h : k' ≠ k) : assocGet (assocSet m k v) k' = assocGet m k' := by
  induction m with
  | nil => simp [assocGet, assocSet, Ne.symm h]
  | cons p rest ih =>
    obtain ⟨ka, va⟩ := p
    by_cases hk : ka = k <;> simp [assocGet, assocSet, hk, ih, h, Ne.symm h]

/-- Claim C1: for every event created via `create_event` with stored secret
`s`, `check_secret` on that event id returns Authorized (`Ok`) for `s` and
Forbidden for any other supplied secret, on either backend, the comparison
being string equality against the stored secret (on the Dynamo backend,
provided the transport is healthy). -/
theorem C1_check_secret_after_create (b : Backend) (eid : Uuid) (s x : String)
    (hok : (create_event b eid s).transportOk) (hx : x ≠ s) :
    check_secret (create_event b eid s) eid s = some (.ok ()) ∧
    check_secret (create_event b eid s) eid x = some (.error .FORBIDDEN) := by
  cases b with
  | Dynamo c =>
    have hc : c.transportFails = false := hok
    constructor <;>
      simp [check_secret, create_event, DynamoClient.getItemSecret, hc,
        assocGet_assocSet_self, assocGet, AttributeValue.asS, beq_iff_eq,
        Ne.symm hx]
  | Loc st =>
    constructor <;>
      simp [check_secret, create_event, assocGet_assocSet_self, beq_iff_eq,
        Ne.symm hx]

/-- Witness for C1 at a concrete event and secrets, on both backends. -/
theorem C1_witness :
    check_secret (create_event (.Loc ⟨[], [], []⟩) "e" "s") "e" "s" = some (.ok ()) ∧
    check_secret (create_event (.Loc ⟨[], [], []⟩) "e" "s") "e" "wrong"
      = some (.error .FORBIDDEN) ∧
    check_secret (create_event (.Dynamo ⟨[], false⟩) "e" "s") "e" "s" = some (.ok ()) ∧
    check_secret (create_event (.Dynamo ⟨[], false⟩) "e" "s") "e" "wrong"
      = some (.error .FORBIDDEN) := by
  have h1 := C1_check_secret_after_create (.Loc ⟨[], [], []⟩) "e" "s" "wrong"
    trivial (by decide)
  have h2 := C1_check_secret_after_create (.Dynamo ⟨[], false⟩) "e" "s" "wrong"
    rfl (by decide)
  exact ⟨h1.1, h1.2, h2.1, h2.2⟩

/-- Claim C2 counterexample: on the Local backend, `check_secret` with an
event id absent from the store does not return any result: `events[eid]`
indexes the `HashMap` with a missing key and the process panics (modelled
as `none`). -/
theorem C2_cex_local_panics :
    check_secret (.Loc { events := [], questions := [], questions_by_eid := [] })
      "e" "s" = none := rfl

/-- Claim C2 (amended): `check_secret` always terminates by returning a
value of the failure taxonomy (Authorized, Forbidden, or StoreUnavailable)
-- on the Dynamo backend for every input, and on the Local backend
whenever the event id is present in the store; with an absent event id the
Local branch panics instead of returning. -/
theorem C2_check_secret_total (b : Backend) (eid : Uuid) (secret : String)
    (h : b.hasEventLocally eid) : (check_secret b eid secret).isSome = true := by
  cases b with
  | Dynamo c => simp [check_secret]
  | Loc st =>
    have h2 : (assocGet st.events eid).isSome = true := h
    rcases Option.isSome_iff_exists.mp h2 with ⟨s, hs⟩
    simp [check_secret, hs]

/-- Witness for C2 at a concrete Local store holding the event. -/
theorem C2_witness :
    (check_secret (.Loc { events := [("e", "s")], questions := [], questions_by_eid := [] })
      "e" "x").isSome = true :=
  C2_check_secret_total
    (.Loc { events := [("e", "s")], questions := [], questions_by_eid := [] }) "e" "x" rfl

/-- Claim C3 counterexample: on the same logical store contents (no events
at all), the two adapters disagree on `check_secret` of an unknown event
id: the Dynamo branch returns Forbidden while the Local branch panics
(returns no result). -/
theorem C3_cex_backends_disagree :
    check_secret (.Dynamo { events := [], transportFails := false }) "e" "s"
      = some (.error .FORBIDDEN) ∧
    check_secret (.Loc { events := [], questions := [], questions_by_eid := [] })
      "e" "s" = none ∧
    (some (.error .FORBIDDEN) : Option (Except StatusCode Unit)) ≠ none :=
  ⟨rfl, rfl, by simp⟩

/-- Claim C3 (amended): when the two backends hold the same event secrets,
the Dynamo transport is healthy, and the event id is present in the store,
`check_secret` yields the same observable outcome on both backends for
every supplied secret.  (For an absent event id they disagree: Forbidden
versus panic.) -/
theorem C3_check_secret_equiv (c : DynamoClient) (st : Local) (eid : Uuid) (secret : String)
    (hrep : representsEvents c st) (hok : c.transportFails = false)
    (hev : (assocGet st.events eid).isSome = true) :
    check_secret (.Dynamo c) eid secret = check_secret (.Loc st) eid secret := by
  rcases Option.isSome_iff_exists.mp hev with ⟨s, hs⟩
  have h := hrep eid
  rw [hs] at h
  rcases Option.bind_eq_some.mp h with ⟨av, h1, h2⟩
  rcases Option.bind_eq_some.mp h1 with ⟨item, h3, h4⟩
  cases av with
  | S t =>
    have ht : t = s := by simpa [AttributeValue.asS] using h2
    subst ht
    simp [check_secret, DynamoClient.getItemSecret, hok, h3, h4, hs,
      assocGet, AttributeValue.asS]
  | N n => simp [AttributeValue.asS] at h2
  | B b => simp [AttributeValue.asS] at h2

/-- Witness for C3 at concrete matching stores. -/
theorem C3_witness :
    check_secret (.Dynamo { events := [("e", [("secret", .S "s")])], transportFails := false })
        "e" "guess"
      = check_secret (.Loc { events := [("e", "s")], questions := [], questions_by_eid := [] })
        "e" "guess" :=
  C3_check_secret_equiv
    { events := [("e", [("secret", .S "s")])], transportFails := false }
    { events := [("e", "s")], questions := [], questions_by_eid := [] }
    "e" "guess"
    (by
      intro eid
      by_cases h : eid = "e"
      · subst h
        simp [assocGet, AttributeValue.asS]
      · simp [assocGet, Ne.symm h, AttributeValue.asS])
    rfl rfl

/-- Claim C10: on the Dynamo backend with a healthy transport, an event id
with no stored record yields Forbidden from `check_secret` -- the same
result as a wrong secret for an existing event (C1) -- not NotFound and
not StoreUnavailable. -/
theorem C10_unknown_event_forbidden (c : DynamoClient) (eid : Uuid) (secret : String)
    (hok : c.transportFails = false) (habs : assocGet c.events eid = none) :
    check_secret (.Dynamo c) eid secret = some (.error .FORBIDDEN) := by
  simp [check_secret, DynamoClient.getItemSecret, hok, habs]

/-- Witness for C10 at a concrete empty table. -/
theorem C10_witness :
    check_secret (.Dynamo { events := [], transportFails := false }) "nobody" "s"
      = some (.error .FORBIDDEN) :=
  C10_unknown_event_forbidden { events := [], transportFails := false } "nobody" "s" rfl rfl

/-- Claim C4: for a question with current count c, `vote` up sets and
returns c+1 and `vote` down sets and returns c-1 clamped at 0 (over the
integers, the new count is max(c-1, 0); at c = 0 the down vote leaves 0
with no distinct error); for an absent question id both directions fail
with NotFound and change nothing. -/
theorem C4_vote_semantics (st : Store) (qid : Uuid) :
    (∀ q, assocGet st.questions qid = some q →
      (vote st qid .up).1 = .ok (q.votes + 1) ∧
      getVotes (vote st qid .up).2 qid = some (q.votes + 1) ∧
      (vote st qid .down).1 = .ok (q.votes - 1) ∧
      getVotes (vote st qid .down).2 qid = some (q.votes - 1) ∧
      ((q.votes - 1 : Nat) : Int) = max ((q.votes : Int) - 1) 0 ∧
      (q.votes = 0 →
        (vote st qid .down).1 = .ok 0 ∧ getVotes (vote st qid .down).2 qid = some 0)) ∧
    (assocGet st.questions qid = none →
      vote st qid .up = (.error .NotFound, st) ∧
      vote st qid .down = (.error .NotFound, st)) := by
  constructor
  · intro q hq
    refine ⟨?_, ?_, ?_, ?_, ?_, ?_⟩
    · simp [vote, hq]
    · simp [vote, hq, getVotes, assocGet_assocSet_self]
    · simp [vote, hq]
    · simp [vote, hq, getVotes, assocGet_assocSet_self]
    · omega
    · intro h0
      constructor
      · simp [vote, hq, h0]
      · simp [vote, hq, h0, getVotes, assocGet_assocSet_self]
  · intro h
    constructor <;> simp [vote, h]

/-- Witness for C4 at the concrete store: q1 has 2 votes; up gives 3, down
gives 1, and an unknown id fails with NotFound. -/
theorem C4_witness :
    (vote store1 "q1" .up).1 = .ok 3 ∧
    getVotes (vote store1 "q1" .down).2 "q1" = some 1 ∧
    vote store1 "nope" .up = (.error .NotFound, store1) := by
  have h := C4_vote_semantics store1 "q1"
  have h2 := C4_vote_semantics store1 "nope"
  exact ⟨(h.1 q1 rfl).1, (h.1 q1 rfl).2.2.2.1, (h2.2 rfl).1⟩

/-- Claim C5: for an existing question and a property in
{hidden, answered}, each `toggle` returns the flipped value, and applying
it twice returns the flag to its original value (involution). -/
theorem C5_toggle_involution (st : Store) (qid : Uuid) (p : String) (q : Question)
    (hp : p = "hidden" ∨ p = "answered") (hq : assocGet st.questions qid = some q) :
    ∃ b, getFlag st qid p = some b ∧
      (toggle st qid p).1 = .ok (!b) ∧
      (toggle (toggle st qid p).2 qid p).1 = .ok b ∧
      getFlag (toggle (toggle st qid p).2 qid p).2 qid p = some b := by
  rcases hp with hp | hp <;> subst hp
  · exact ⟨q.hidden,
      by simp [getFlag, hq],
      by simp [toggle, hq],
      by simp [toggle, hq, assocGet_assocSet_self],
      by simp [toggle, getFlag, hq, assocGet_assocSet_self]⟩
  · exact ⟨q.answered,
      by simp [getFlag, hq],
      by simp [toggle, hq],
      by simp [toggle, hq, assocGet_assocSet_self],
      by simp [toggle, getFlag, hq, assocGet_assocSet_self]⟩

/-- Witness for C5 at the concrete store: toggling `answered` on q1 twice
returns it to its original value false. -/
theorem C5_witness :
    ∃ b, getFlag store1 "q1" "answered" = some b ∧
      (toggle store1 "q1" "answered").1 = .ok (!b) ∧
      (toggle (toggle store1 "q1" "answered").2 "q1" "answered").1 = .ok b ∧
      getFlag (toggle (toggle store1 "q1" "answered").2 "q1" "answered").2 "q1" "answered"
        = some b :=
  C5_toggle_involution store1 "q1" "answered" q1 (Or.inr rfl) rfl

/-- Claim C6: `toggle` with a property name outside {hidden, answered}
fails with InvalidProperty for every question id; with a valid property
name and an absent question id it fails with NotFound; in both failure
cases the store is returned unchanged. -/
theorem C6_toggle_failures (st : Store) (qid : Uuid) (p : String) :
    (p ≠ "hidden" → p ≠ "answered" → toggle st qid p = (.error .InvalidProperty, st)) ∧
    ((p = "hidden" ∨ p = "answered") → assocGet st.questions qid = none →
      toggle st qid p = (.error .NotFound, st)) := by
  constructor
  · intro h1 h2
    simp [toggle, h1, h2]
  · rintro (hp | hp) habs <;> subst hp <;> simp [toggle, habs]

/-- Witness for C6 at the concrete store: an unknown property name fails
with InvalidProperty, and a valid name on an unknown question id fails
with NotFound, both leaving the store unchanged. -/
theorem C6_witness :
    toggle store1 "q1" "starred" = (.error .InvalidProperty, store1) ∧
    toggle store1 "nope" "hidden" = (.error .NotFound, store1) :=
  ⟨(C6_toggle_failures store1 "q1" "starred").1 (by decide) (by decide),
   (C6_toggle_failures store1 "nope" "hidden").2 (Or.inl rfl) rfl⟩

/-- Claim C7: for a known event id, `list_visible` returns exactly the
event questions whose hidden flag is false (never one with hidden = true)
and `list_all` returns every event question regardless of flags; for an
unknown event id both fail with NotFound. -/
theorem C7_list_semantics (st : Store) (eid : Uuid) :
    ((assocGet st.events eid).isSome = true →
      list_all st eid = .ok (eventQuestions st eid) ∧
      ∃ vs, list_visible st eid = .ok vs ∧
        (∀ q, q ∈ vs → q.hidden = false) ∧
        (∀ q, q ∈ vs ↔ q ∈ eventQuestions st eid ∧ q.hidden = false)) ∧
    ((assocGet st.events eid).isSome = false →
      list_visible st eid = .error .NotFound ∧ list_all st eid = .error .NotFound) := by
  constructor
  · intro h
    refine ⟨by simp [list_all, h], (eventQuestions st eid).filter (fun q => !q.hidden),
      by simp [list_visible, h], ?_, ?_⟩
    · intro q hq
      have := List.of_mem_filter hq
      simpa using this
    · intro q
      constructor
      · intro hq
        exact ⟨List.mem_of_mem_filter hq, by simpa using List.of_mem_filter hq⟩
      · intro ⟨hmem, hh⟩
        exact List.mem_filter.mpr ⟨hmem, by simp [hh]⟩
  · intro h
    constructor <;> simp [list_visible, list_all, h]

/-- Witness for C7 at the concrete store: the event lists its single
visible question, and an unknown event id fails with NotFound. -/
theorem C7_witness :
    list_all store1 "e1" = .ok (eventQuestions store1 "e1") ∧
    list_visible store1 "ghost" = .error .NotFound :=
  ⟨((C7_list_semantics store1 "e1").1 rfl).1,
   ((C7_list_semantics store1 "ghost").2 rfl).1⟩

/-- Claim C8: for a known event id, `ask` returns the fresh question id,
stores a question with votes = 0, hidden = false, answered = false,
created = the current time, the given text and the owning event id, and
appends the new id to the event question set; for an unknown event id it
fails with NotFound and changes nothing. -/
theorem C8_ask_semantics (st : Store) (eid qid : Uuid) (tx : String) (now : Nat) :
    ((assocGet st.events eid).isSome = true →
      (ask st eid qid tx now).1 = .ok qid ∧
      assocGet (ask st eid qid tx now).2.questions qid =
        some { qid := qid, event_id := eid, text := tx, votes := 0,
               hidden := false, answered := false, created := now } ∧
      assocGet (ask st eid qid tx now).2.questions_by_eid eid =
        some ((assocGet st.questions_by_eid eid).getD [] ++ [qid])) ∧
    ((assocGet st.events eid).isSome = false →
      ask st eid qid tx now = (.error .NotFound, st)) := by
  constructor
  · intro h
    refine ⟨by simp [ask, h], ?_, ?_⟩
    · simp [ask, h, assocGet_assocSet_self]
    · simp [ask, h, assocGet_assocSet_self]
  · intro h
    simp [ask, h]

/-- Witness for C8 at the concrete store: asking on event e1 stores the
new question with the default field values and appends its id. -/
theorem C8_witness :
    (ask store1 "e1" "q2" "Why?" 200).1 = .ok "q2" ∧
    assocGet (ask store1 "e1" "q2" "Why?" 200).2.questions "q2" =
      some { qid := "q2", event_id := "e1", text := "Why?", votes := 0,
             hidden := false, answered := false, created := 200 } ∧
    ask store1 "nope" "q2" "Why?" 200 = (.error .NotFound, store1) :=
  ⟨((C8_ask_semantics store1 "e1" "q2" "Why?" 200).1 rfl).1,
   ((C8_ask_semantics store1 "e1" "q2" "Why?" 200).1 rfl).2.1,
   (C8_ask_semantics store1 "nope" "q2" "Why?" 200).2 rfl⟩

/-- Claim C9: n concurrent up-votes on the same question increase its
count by exactly n.  Per section 5 each vote is a single atomic step
(full-duration mutex on the Local adapter, one conditional update on the
remote one), so every interleaving of the n callers executes the n atomic
increments in some serial order, which `voteUpN` captures; no update is
lost. -/
theorem C9_concurrent_votes (st : Store) (qid : Uuid) (c n : Nat)
    (h : getVotes st qid = some c) :
    getVotes (voteUpN st qid n) qid = some (c + n) := by
  induction n generalizing st c with
  | zero => simpa using h
  | succ n ih =>
    rcases Option.map_eq_some.mp h with ⟨q, hq, hv⟩
    have hstep : getVotes (vote st qid .up).2 qid = some (c + 1) := by
      simp [vote, hq, getVotes, assocGet_assocSet_self, hv]
    have := ih _ _ hstep
    show getVotes (voteUpN (vote st qid .up).2 qid n) qid = some (c + (n + 1))
    rw [this]
    congr 1
    omega

/-- Witness for C9 at the concrete store: three up-votes take q1 from 2 to
5 votes. -/
theorem C9_witness : getVotes (voteUpN store1 "q1" 3) "q1" = some 5 :=
  C9_concurrent_votes store1 "q1" 2 3 rfl
